import Mathlib

/-!
Shallow embedding of the client UI of the Excel mock-interview front-end
(src/frontend/src/App.js, Interview.js, AudioRecorder.js).

The three files are React components whose behaviour is a set of event
handlers over local state.  Each handler is embedded as a pure function
from its inputs (component state, the HTTP outcome it awaits, the media
events it receives) to the resulting state together with the observable
effects (alerts raised, requests issued, callbacks invoked).  JavaScript
string truthiness (empty string is falsy) and `a || b` are modelled
explicitly; `String.prototype.trim` and `String.prototype.includes` are
modelled by executable functions over the character list so that every
definition evaluates by kernel reduction.
-/

/-- JS `a || b` on strings: returns `a` unless `a` is the empty string (falsy). -/
def jsOrStr (a b : String) : String := if a = "" then b else a

/-- JS `a || b` where `a` is a possibly-absent string field of a parsed JSON
object: an absent field (`undefined`) and an empty string are both falsy. -/
def jsOr2 (a : Option String) (b : String) : String :=
  match a with
  | none => b
  | some s => jsOrStr s b

/-- ASCII whitespace recognised by the trim model. -/
def isWsChar (c : Char) : Bool := c == ' ' || c == '\t' || c == '\n' || c == '\r'

/-- Drop leading whitespace characters. -/
def dropLeadingWs : List Char → List Char
  | [] => []
  | c :: cs => if isWsChar c then dropLeadingWs cs else c :: cs

/-- Model of JS `String.prototype.trim` (over ASCII whitespace). -/
def jsTrim (s : String) : String :=
  ⟨(dropLeadingWs ((dropLeadingWs s.data).reverse)).reverse⟩

/-- Whether the first list occurs at the head of the second. -/
def matchesAt : List Char → List Char → Bool
  | [], _ => true
  | _ :: _, [] => false
  | a :: as, b :: bs => a == b && matchesAt as bs

/-- Whether the first list occurs anywhere inside the second. -/
def containsSub (sub : List Char) : List Char → Bool
  | [] => matchesAt sub []
  | c :: cs => matchesAt sub (c :: cs) || containsSub sub cs

/-- Model of JS `s.includes(sub)`. -/
def jsIncludes (s sub : String) : Bool := containsSub sub.data s.data

/-- A question as delivered by the backend (`{id, text, category}`). -/
structure Question where
  id : String
  text : String
  category : String
deriving Repr, DecidableEq

/-- An evaluation as delivered by the backend
(`{score, feedback, strengths[], improvements[]}`). -/
structure Evaluation where
  score : Nat
  feedback : String
  strengths : List String
  improvements : List String
deriving Repr, DecidableEq

/-- The fields of a parsed submission-response JSON body that the client
inspects.  `detail` and `error` are the optional error-description fields;
`interview_complete` is the JS truthiness of that field; `next_question`
and `evaluation` are present-or-absent objects. -/
structure RespJson where
  detail : Option String
  error : Option String
  evaluation : Option Evaluation
  interview_complete : Bool
  next_question : Option Question
deriving Repr, DecidableEq

/-- The part of the session payload `submitAnswer` reads. -/
structure SessionData where
  session_id : String
deriving Repr, DecidableEq

/-- An in-memory audio blob: its byte size and MIME type string. -/
structure Blob where
  size : Nat
  type : String
deriving Repr, DecidableEq

/-- A named file wrapped around a blob (`new File([audioBlob], name, {type})`). -/
structure AudioFile where
  name : String
  size : Nat
  type : String
deriving Repr, DecidableEq

/-- A value appended to a `FormData` object: a string field or a file field. -/
inductive FormValue where
  | str (s : String)
  | file (f : AudioFile)
deriving Repr, DecidableEq

/-- The multipart form body built by `submitAnswer` (Interview.js lines 28-42),
as the ordered list of appended `(key, value)` entries.  `answer_text` is
appended unconditionally as `answerText || ""`; `audio_file` only when an
audio file is present. -/
def buildFormData (sessionId : String) (questionId : String) (answerText : String)
    (audioFile : Option AudioFile) : List (String × FormValue) :=
  [("session_id", FormValue.str sessionId),
   ("question_id", FormValue.str questionId),
   ("answer_text", FormValue.str (jsOrStr answerText ""))] ++
  (match audioFile with
   | some f => [("audio_file", FormValue.file f)]
   | none => [])

/-- First value stored under a key in a form-entry list. -/
def listLookup (k : String) : List (String × FormValue) → Option FormValue
  | [] => none
  | (k1, v) :: rest => if k1 = k then some v else listLookup k rest

/-- Local state of the Interview component (Interview.js lines 5-10). -/
structure InterviewState where
  currentQuestion : Option Question
  questionNumber : Nat
  loading : Bool
  feedback : Option Evaluation
  showFeedback : Bool
  error : Option String
deriving Repr, DecidableEq

/-- The body of an HTTP response as the client consumes it: either it parses
as JSON, or `response.json()` rejects (carrying the parse-failure message)
and `response.text()` yields the raw body text. -/
inductive JsonBody where
  | parsed (j : RespJson)
  | unparseable (parseMsg : String) (raw : String)
deriving Repr

/-- Outcome of the awaited `fetch` call: the promise rejects with an error
message (network failure), or a response arrives with its `ok` flag
(status in 200-299), numeric status, and body. -/
inductive FetchOutcome where
  | netError (msg : String)
  | response (ok : Bool) (status : Nat) (body : JsonBody)
deriving Repr

/-- The generic alert text of the outer catch (Interview.js line 113). -/
def genericAlertMsg : String :=
  "Failed to submit answer. Please check your connection and try again."

/-- Alerts raised by the outer catch for a failure whose message is `msg`:
the generic alert, unless `msg` contains the substring `Server error`
(Interview.js lines 112-114). -/
def catchAlerts (msg : String) : List String :=
  if jsIncludes msg "Server error" then [] else [genericAlertMsg]

/-- The error message computed for a non-2xx response (Interview.js lines
62-72): for a parseable body, `errorData.detail || errorData.error ||
"Failed to submit answer"`; otherwise the raw body folded into
`Server error (status): body`. -/
def errorMessageFor (status : Nat) : JsonBody → String
  | JsonBody.parsed j => jsOr2 j.detail (jsOr2 j.error "Failed to submit answer")
  | JsonBody.unparseable _ raw => "Server error (" ++ toString status ++ "): " ++ raw

/-- Core of `submitAnswer` after the request is issued: given the state with
`loading := true, error := none` already set, and the fetch outcome, return
the state after the try/catch/finally completes, the alerts raised, and the
parsed result scheduled for the 3-second dwell timeout (present exactly on
the success path).  Every branch ends with `loading := false` (the finally
block).  The function returns normally on every branch: the outer catch
(Interview.js lines 107-114) swallows every thrown error, so the promise
returned by `submitAnswer` never rejects. -/
def submitCore (st1 : InterviewState) :
    FetchOutcome → InterviewState × List String × Option RespJson
  | FetchOutcome.netError m =>
      let msg := jsOrStr m "Network error occurred"
      ({ st1 with error := some msg, loading := false }, catchAlerts msg, none)
  | FetchOutcome.response ok status body =>
      if ok then
        match body with
        | JsonBody.parsed j =>
            match j.evaluation with
            | some e =>
                ({ st1 with feedback := some e, showFeedback := true, loading := false },
                 [], some j)
            | none =>
                let msg := "Invalid response format - missing evaluation"
                ({ st1 with error := some msg, loading := false }, catchAlerts msg, none)
        | JsonBody.unparseable pm _ =>
            let msg := jsOrStr pm "Network error occurred"
            ({ st1 with error := some msg, loading := false }, catchAlerts msg, none)
      else
        let msg := errorMessageFor status body
        ({ st1 with error := some msg, loading := false },
         ("Error: " ++ msg) :: catchAlerts msg, none)

/-- Full result of one `submitAnswer` call: final state, alerts raised in
order, the multipart request issued (none when the guard returned early),
the parsed result scheduled for the dwell timeout, and whether the promise
returned to the caller rejects. -/
structure SubmitResult where
  state : InterviewState
  alerts : List String
  request : Option (List (String × FormValue))
  pendingDwell : Option RespJson
  rejects : Bool
deriving Repr

/-- Embedding of `submitAnswer` (Interview.js lines 18-118) up to the dwell
timeout.  The no-question guard alerts and returns without a request;
otherwise the form data is assembled and the fetch outcome is dispatched by
`submitCore`.  `rejects` is `false` on every path: the outer catch swallows
every failure, so the async function always resolves. -/
def submitAnswer (st : InterviewState) (sess : SessionData) (answerText : String)
    (audioFile : Option AudioFile) (fetchResult : FetchOutcome) : SubmitResult :=
  match st.currentQuestion with
  | none =>
      { state := st, alerts := ["No question available to answer"],
        request := none, pendingDwell := none, rejects := false }
  | some q =>
      let st1 := { st with loading := true, error := none }
      let req := buildFormData sess.session_id q.id answerText audioFile
      let core := submitCore st1 fetchResult
      { state := core.1, alerts := core.2.1, request := some req,
        pendingDwell := core.2.2, rejects := false }

/-- The dwell-timeout body (Interview.js lines 91-105), run 3 seconds after a
successful response `r` was displayed: returns the new state and the number
of `onComplete` calls made.  `interview_complete` terminates the interview;
otherwise a present `next_question` becomes current and the counter
increments; otherwise the unexpected-response error is set. -/
def dwellStep (st : InterviewState) (r : RespJson) : InterviewState × Nat :=
  if r.interview_complete then
    (st, 1)
  else
    match r.next_question with
    | some q =>
        ({ st with currentQuestion := some q,
                   questionNumber := st.questionNumber + 1,
                   feedback := none, showFeedback := false }, 0)
    | none =>
        ({ st with error := some "Unexpected response from server" }, 0)

/-- Outcome of one `handleSubmit` run in AudioRecorder (lines 108-155): whether
the empty-answer warning was raised, the arguments the `onSubmit` callback
was invoked with (none when validation rejected), and the text/audio state
after the run. -/
structure CaptureOutcome where
  warned : Bool
  invoked : Option (String × Option AudioFile)
  answerText : String
  audioBlob : Option Blob
deriving Repr, DecidableEq

/-- Wrap a blob as a named file (AudioRecorder lines 120-128): the MIME type
defaults to `audio/wav`, and the name extension is `webm` when the type
contains `webm`, else `wav`. -/
def audioFileOf (b : Blob) : AudioFile :=
  let mimeType := jsOrStr b.type "audio/wav"
  let ext := if jsIncludes mimeType "webm" then "webm" else "wav"
  { name := "answer." ++ ext, size := b.size, type := mimeType }

/-- Embedding of `handleSubmit` (AudioRecorder.js lines 108-155).
`onSubmitRejects` is whether the awaited `onSubmit` promise rejects: only
then does the catch keep the form; otherwise text and audio are cleared. -/
def handleSubmit (answerText : String) (audioBlob : Option Blob)
    (onSubmitRejects : Bool) : CaptureOutcome :=
  let hasText : Bool := jsTrim answerText != ""
  let hasAudio : Bool :=
    match audioBlob with
    | some b => decide (0 < b.size)
    | none => false
  if !hasText && !hasAudio then
    { warned := true, invoked := none,
      answerText := answerText, audioBlob := audioBlob }
  else
    let audioFile : Option AudioFile :=
      if hasAudio then
        match audioBlob with
        | some b => some (audioFileOf b)
        | none => none
      else none
    let args := (jsOrStr (jsTrim answerText) "", audioFile)
    if onSubmitRejects then
      { warned := false, invoked := some args,
        answerText := answerText, audioBlob := audioBlob }
    else
      { warned := false, invoked := some args,
        answerText := "", audioBlob := none }

/-- Local state of the AudioRecorder component (lines 4-7). -/
structure RecorderState where
  isRecording : Bool
  audioBlob : Option Blob
  answerText : String
  recordingTime : Nat
deriving Repr, DecidableEq

/-- The start-recording control is rendered only when no recording is active
and no completed blob is held (AudioRecorder.js line 174:
`!isRecording && !audioBlob`). -/
def startAvailable (s : RecorderState) : Bool :=
  !s.isRecording && s.audioBlob.isNone

/-- Chunks actually retained by the `ondataavailable` handler (lines 41-45):
only data events of positive size are pushed. -/
def capturedChunks (dataEvents : List Nat) : List Nat :=
  dataEvents.filter (fun n => decide (0 < n))

/-- Blob assembled by the `onstop` handler (lines 47-64) from the retained
chunks: with at least one chunk, a blob of the summed size tagged with the
recorder MIME type (defaulting to `audio/wav`); with none, the previous
blob state is left untouched. -/
def onstopBlob (prior : Option Blob) (dataEvents : List Nat)
    (recMime : String) : Option Blob :=
  let chunks := capturedChunks dataEvents
  if 0 < chunks.length then
    some { size := chunks.sum, type := jsOrStr recMime "audio/wav" }
  else prior

/-- User events of the recorder sub-machine.  `stopRec` carries the data
events delivered during the recording and the recorder MIME type;
`startRec` models pressing the start control. -/
inductive RecEvent where
  | startRec
  | stopRec (dataEvents : List Nat) (recMime : String)
  | clearRec
  | tick
deriving Repr

/-- One step of the recorder state machine, as driven by the exposed
controls: `startRec` only takes effect when the start control is rendered
(line 174); `stopRec` runs `stopRecording` plus the `onstop` handler;
`clearRec` is `clearRecording`; `tick` is the 1-second timer. -/
def recStep (s : RecorderState) : RecEvent → RecorderState
  | RecEvent.startRec =>
      if startAvailable s then { s with isRecording := true } else s
  | RecEvent.stopRec dataEvents recMime =>
      if s.isRecording then
        { s with isRecording := false, recordingTime := 0,
                 audioBlob := onstopBlob s.audioBlob dataEvents recMime }
      else s
  | RecEvent.clearRec => { s with audioBlob := none }
  | RecEvent.tick =>
      if s.isRecording then { s with recordingTime := s.recordingTime + 1 } else s

/-- How an active recording ends: the user presses stop (line 98,
`mediaRecorder.stop()`), or the recorder raises an error (the `onerror`
handler at lines 66-70; per the MediaRecorder platform contract the
recorder then becomes inactive and its stop event still fires). -/
inductive ExitPath where
  | userStop
  | recorderError
deriving Repr

/-- Observable outcome of ending a recording. -/
structure ExitOutcome where
  audioBlob : Option Blob
  noAudioWarned : Bool
  errorAlerted : Bool
  tracksStopped : Bool
deriving Repr, DecidableEq

/-- Run one exit path from an active recording.  On both paths the `onstop`
handler runs; its final statement (line 63,
`stream.getTracks().forEach(track => track.stop())`) sits after the
chunk-count branch and so executes unconditionally, releasing the
microphone.  The error path additionally raises the recording-error
alert (line 68). -/
def runExit (e : ExitPath) (prior : Option Blob) (dataEvents : List Nat)
    (recMime : String) : ExitOutcome :=
  let blob := onstopBlob prior dataEvents recMime
  let warned := capturedChunks dataEvents |>.isEmpty
  match e with
  | ExitPath.userStop =>
      { audioBlob := blob, noAudioWarned := warned,
        errorAlerted := false, tracksStopped := true }
  | ExitPath.recorderError =>
      { audioBlob := blob, noAudioWarned := warned,
        errorAlerted := true, tracksStopped := true }

/-- Outcome of `handleStart` in the InterviewSetup component (App.js lines
59-85) combined with the view transition its callbacks trigger: the
empty-name warning, the session-creation request body if one was issued,
the resulting top-level view, and whether the failure alert fired. -/
structure StartOutcome where
  warned : Bool
  request : Option (String × String)
  view : String
  failAlert : Bool
deriving Repr, DecidableEq

/-- Outcome of the awaited session-start fetch. -/
inductive StartResp where
  | netError
  | response (ok : Bool) (data : SessionData)
deriving Repr

/-- Embedding of `handleStart` (App.js lines 59-85): an empty trimmed name
warns and returns before any request; otherwise the request `{name,
experience}` is issued, and on a 2xx response `onStart` routes to the
interview view, while any failure alerts and stays on the start form. -/
def handleStart (name : String) (experience : String) (resp : StartResp) :
    StartOutcome :=
  if jsTrim name = "" then
    { warned := true, request := none, view := "home", failAlert := false }
  else
    match resp with
    | StartResp.netError =>
        { warned := false, request := some (name, experience),
          view := "home", failAlert := true }
    | StartResp.response ok _ =>
        if ok then
          { warned := false, request := some (name, experience),
            view := "interview", failAlert := false }
        else
          { warned := false, request := some (name, experience),
            view := "home", failAlert := true }

/-- The start button is disabled while loading or when the trimmed name is
empty (App.js line 110: `loading || !name.trim()`). -/
def startDisabled (loading : Bool) (name : String) : Bool :=
  loading || (jsTrim name == "")

/-- A concrete current question for witnesses and counterexamples. -/
def q0 : Question :=
  { id := "q1", text := "What does VLOOKUP do?", category := "functions" }

/-- A concrete follow-up question. -/
def q1 : Question :=
  { id := "q2", text := "Explain pivot tables.", category := "analysis" }

/-- A concrete Interview state holding a current question. -/
def st0 : InterviewState :=
  { currentQuestion := some q0, questionNumber := 1, loading := false,
    feedback := none, showFeedback := false, error := none }

/-- A concrete session payload. -/
def sess0 : SessionData := { session_id := "s1" }

/-- A concrete recorded audio blob. -/
def blob0 : Blob := { size := 2048, type := "audio/webm;codecs=opus" }

/-- A concrete evaluation. -/
def eval0 : Evaluation :=
  { score := 4, feedback := "good", strengths := ["clear"], improvements := [] }

/-- A non-2xx error body carrying a detail message. -/
def jBoom : RespJson :=
  { detail := some "boom", error := none, evaluation := none,
    interview_complete := false, next_question := none }

/-- The error body of the worked example: `detail` is `bad audio format`. -/
def jBadAudio : RespJson :=
  { detail := some "bad audio format", error := none, evaluation := none,
    interview_complete := false, next_question := none }

/-- An error body whose `detail` field is present but empty while `error`
carries a message. -/
def jEmptyDetail : RespJson :=
  { detail := some "", error := some "x", evaluation := none,
    interview_complete := false, next_question := none }

/-- A successful body carrying an evaluation and a next question. -/
def jNext : RespJson :=
  { detail := none, error := none, evaluation := some eval0,
    interview_complete := false, next_question := some q1 }

/-- A recorder state with a recording in progress. -/
def sRec0 : RecorderState :=
  { isRecording := true, audioBlob := none, answerText := "", recordingTime := 3 }

/-- jsOrStr with an empty right operand is the identity. -/
theorem jsOrStr_empty (s : String) : jsOrStr s "" = s := by
  unfold jsOrStr
  split
  · simp_all
  · rfl

/-- The promise returned by `submitAnswer` resolves on every path: the outer
catch swallows every thrown failure, so callers can never observe a
rejection. -/
theorem submitAnswer_never_rejects (st : InterviewState) (sess : SessionData)
    (text : String) (audio : Option AudioFile) (f : FetchOutcome) :
    (submitAnswer st sess text audio f).rejects = false := by
  cases hq : st.currentQuestion <;> simp [submitAnswer, hq]

/-- C1: the claim says a failed submission preserves the answer text and the
recorded audio so the user may retry.  The code violates this: the outer
catch in `submitAnswer` swallows the failure, so the promise awaited by
`handleSubmit` resolves and the form is cleared even though the submission
failed.  At a concrete failed submission (non-2xx response with detail
`boom`), the error state is set, yet the composed capture outcome has the
text field emptied and the audio blob discarded. -/
theorem c1_failed_submission_still_clears_form :
    (submitAnswer st0 sess0 "my answer" (some (audioFileOf blob0))
        (FetchOutcome.response false 500 (JsonBody.parsed jBoom))).state.error
      = some "boom" ∧
    (handleSubmit "my answer" (some blob0)
        (submitAnswer st0 sess0 "my answer" (some (audioFileOf blob0))
          (FetchOutcome.response false 500 (JsonBody.parsed jBoom))).rejects).answerText
      = "" ∧
    (handleSubmit "my answer" (some blob0)
        (submitAnswer st0 sess0 "my answer" (some (audioFileOf blob0))
          (FetchOutcome.response false 500 (JsonBody.parsed jBoom))).rejects).audioBlob
      = none := by
  refine ⟨?_, ?_, ?_⟩ <;> decide

/-- C6: the claim says the immediate alert raised on a non-2xx status
suppresses the later generic alert, so no failure is announced twice.  The
code violates this: the suppression test checks only for the substring
`Server error`, which the message carries solely on the unparseable-body
path.  A non-2xx response with the parseable body `detail = bad audio
format` raises the immediate alert and then the generic alert as well —
two alerts for one failure. -/
theorem c6_parsed_error_body_alerts_twice :
    (submitAnswer st0 sess0 "an answer" none
        (FetchOutcome.response false 400 (JsonBody.parsed jBadAudio))).alerts
      = ["Error: bad audio format", genericAlertMsg] ∧
    (submitAnswer st0 sess0 "an answer" none
        (FetchOutcome.response false 400 (JsonBody.parsed jBadAudio))).alerts.length
      = 2 := by
  refine ⟨?_, ?_⟩ <;> decide

/-- C5 counterexample: the claim says that for a parseable non-2xx body the
surfaced message is the detail field, else the error field.  At the body
with `detail` present but equal to the empty string and `error = x`, the
code surfaces `x`, not the detail field: JS falsiness makes the empty
detail fall through. -/
theorem c5_counterexample_empty_detail :
    (submitAnswer st0 sess0 "a" none
        (FetchOutcome.response false 422 (JsonBody.parsed jEmptyDetail))).state.error
      = some "x" ∧
    jEmptyDetail.detail = some "" ∧
    ("x" : String) ≠ "" := by
  refine ⟨?_, ?_, ?_⟩ <;> decide

/-- C9: on every exit path from an active recording — the user pressing stop
or a recorder error — and for every chunk outcome including zero captured
chunks, the tracks of the acquired input stream are stopped, because the
release statement in the `onstop` handler sits after the chunk branch and
the stop event fires on both paths. -/
theorem c9_tracks_released (e : ExitPath) (prior : Option Blob)
    (dataEvents : List Nat) (recMime : String) :
    (runExit e prior dataEvents recMime).tracksStopped = true := by
  cases e <;> rfl

/-- C2: for every response inspected after the 3-second dwell, exactly one of
the three cases fires: completion is signalled exactly once and the state
is untouched; or the next question becomes current with the counter
incremented by exactly one and the feedback cleared; or the
unexpected-response error is set.  The guards of the three disjuncts
(`interview_complete` true/false, `next_question` present/absent) are
pairwise contradictory, so the cases are mutually exclusive, and the
disjunction covers every response shape. -/
theorem c2_dwell_trichotomy (st : InterviewState) (r : RespJson) :
    (r.interview_complete = true ∧
       (dwellStep st r).2 = 1 ∧ (dwellStep st r).1 = st) ∨
    (r.interview_complete = false ∧ ∃ q, r.next_question = some q ∧
       (dwellStep st r).2 = 0 ∧
       (dwellStep st r).1.currentQuestion = some q ∧
       (dwellStep st r).1.questionNumber = st.questionNumber + 1 ∧
       (dwellStep st r).1.feedback = none ∧
       (dwellStep st r).1.showFeedback = false) ∨
    (r.interview_complete = false ∧ r.next_question = none ∧
       (dwellStep st r).2 = 0 ∧
       (dwellStep st r).1.error = some "Unexpected response from server" ∧
       (dwellStep st r).1.questionNumber = st.questionNumber) := by
  cases hic : r.interview_complete
  · cases hnq : r.next_question with
    | none =>
        right; right
        refine ⟨rfl, rfl, ?_, ?_, ?_⟩ <;> simp [dwellStep, hic, hnq]
    | some q =>
        right; left
        refine ⟨rfl, q, rfl, ?_, ?_, ?_, ?_, ?_⟩ <;> simp [dwellStep, hic, hnq]
  · left
    refine ⟨rfl, ?_, ?_⟩ <;> simp [dwellStep, hic]

/-- Characterisation of the JS falsy-or over an optional string field: either
the field holds a non-empty string and wins, or it is absent or empty and
the fallback is returned. -/
theorem jsOr2_cases (a : Option String) (b : String) :
    (∃ s, a = some s ∧ s ≠ "" ∧ jsOr2 a b = s) ∨
    ((a = none ∨ a = some "") ∧ jsOr2 a b = b) := by
  rcases a with _ | s
  · right; exact ⟨Or.inl rfl, rfl⟩
  · by_cases h : s = ""
    · subst h; right; exact ⟨Or.inr rfl, by simp [jsOr2, jsOrStr]⟩
    · left; exact ⟨s, rfl, h, by simp [jsOr2, jsOrStr, h]⟩

/-- C3: every issued submission request contains the `answer_text` field,
holding exactly the trimmed text the capture component handed over — the
empty string when the user supplied only audio — and never omits it. -/
theorem c3_answer_text_always_present
    (text : String) (blob : Option Blob) (rej : Bool)
    (st : InterviewState) (sess : SessionData) (resp : FetchOutcome)
    (t : String) (af : Option AudioFile) (entries : List (String × FormValue))
    (hinv : (handleSubmit text blob rej).invoked = some (t, af))
    (hreq : (submitAnswer st sess t af resp).request = some entries) :
    listLookup "answer_text" entries = some (FormValue.str t) ∧ t = jsTrim text := by
  have ht : t = jsTrim text := by
    unfold handleSubmit at hinv
    cases blob with
    | none =>
        by_cases h : jsTrim text = "" <;> cases rej <;>
          simp_all [jsOrStr_empty]
    | some b =>
        by_cases h : jsTrim text = "" <;> by_cases h2 : 0 < b.size <;> cases rej <;>
          simp_all [jsOrStr_empty]
  refine ⟨?_, ht⟩
  cases hq : st.currentQuestion with
  | none => simp [submitAnswer, hq] at hreq
  | some q =>
      simp only [submitAnswer, hq, Option.some.injEq] at hreq
      subst hreq
      cases af <;> simp [buildFormData, listLookup, jsOrStr_empty]

/-- C3 witness: a user who supplied only audio (empty text, a recorded blob)
still produces a request whose `answer_text` entry is present and holds the
empty string. -/
theorem c3_witness :
    listLookup "answer_text" (buildFormData "s1" "q1" "" (some (audioFileOf blob0)))
      = some (FormValue.str "") ∧ "" = jsTrim "" :=
  c3_answer_text_always_present "" (some blob0) false st0 sess0
    (FetchOutcome.netError "x") "" (some (audioFileOf blob0))
    (buildFormData "s1" "q1" "" (some (audioFileOf blob0)))
    (by decide) (by decide)

/-- C4: at the submit action, with the component invariant that a held blob
has positive size (a blob is only ever assembled from a non-empty list of
positive-size chunks), submission is rejected with a warning and without
invoking the callback exactly when the trimmed text is empty and no audio
object exists; in every other case no warning fires and the callback is
invoked with the trimmed text and the wrapped audio file. -/
theorem c4_submit_validation (text : String) (blob : Option Blob) (rej : Bool)
    (hblob : ∀ b, blob = some b → 0 < b.size) :
    (jsTrim text = "" ∧ blob = none →
       (handleSubmit text blob rej).warned = true ∧
       (handleSubmit text blob rej).invoked = none) ∧
    (¬(jsTrim text = "" ∧ blob = none) →
       (handleSubmit text blob rej).warned = false ∧
       (handleSubmit text blob rej).invoked
         = some (jsTrim text, blob.map audioFileOf)) := by
  cases blob with
  | none =>
      by_cases h : jsTrim text = ""
      · refine ⟨fun _ => ?_, fun hn => (hn ⟨h, rfl⟩).elim⟩
        constructor <;> simp [handleSubmit, h]
      · refine ⟨fun hc => absurd hc.1 h, fun _ => ?_⟩
        cases rej <;> constructor <;> simp [handleSubmit, h, jsOrStr_empty]
  | some b =>
      have hb : 0 < b.size := hblob b rfl
      refine ⟨fun hc => Option.noConfusion hc.2, fun _ => ?_⟩
      by_cases h : jsTrim text = "" <;> cases rej <;> constructor <;>
        simp [handleSubmit, h, hb, Nat.pos_iff_ne_zero, jsOrStr_empty]

/-- C4 witness: empty text with a recorded 2048-byte blob is accepted: no
warning and the callback is invoked with the empty string and the wrapped
file. -/
theorem c4_witness :
    (handleSubmit "" (some blob0) false).warned = false ∧
    (handleSubmit "" (some blob0) false).invoked
      = some (jsTrim "", (some blob0).map audioFileOf) :=
  (c4_submit_validation "" (some blob0) false
      (fun b hb => by cases hb; decide)).2 (by simp)

/-- C5 amended: for every non-2xx submission response the surfaced message is
the `detail` field when it is present and non-empty; else the `error` field
when present and non-empty; else the fixed fallback `Failed to submit
answer`; and for an unparseable body the raw text folded into
`Server error (status): body`.  In particular a body whose `detail` is
`bad audio format` surfaces exactly that message. -/
theorem c5_amended_error_message (st : InterviewState) (sess : SessionData)
    (text : String) (audio : Option AudioFile) (status : Nat) (body : JsonBody)
    (q : Question) (hq : st.currentQuestion = some q) :
    (submitAnswer st sess text audio
        (FetchOutcome.response false status body)).state.error
      = some (errorMessageFor status body) ∧
    (∀ j, body = JsonBody.parsed j →
       ((∃ d, j.detail = some d ∧ d ≠ "" ∧ errorMessageFor status body = d) ∨
        ((j.detail = none ∨ j.detail = some "") ∧
         ∃ e, j.error = some e ∧ e ≠ "" ∧ errorMessageFor status body = e) ∨
        ((j.detail = none ∨ j.detail = some "") ∧
         (j.error = none ∨ j.error = some "") ∧
         errorMessageFor status body = "Failed to submit answer"))) ∧
    (∀ pm raw, body = JsonBody.unparseable pm raw →
       errorMessageFor status body
         = "Server error (" ++ toString status ++ "): " ++ raw) := by
  refine ⟨?_, ?_, ?_⟩
  · simp [submitAnswer, hq, submitCore]
  · rintro j rfl
    have hmsg : errorMessageFor status (JsonBody.parsed j)
        = jsOr2 j.detail (jsOr2 j.error "Failed to submit answer") := rfl
    rcases jsOr2_cases j.detail (jsOr2 j.error "Failed to submit answer") with
      ⟨d, hd, hd0, hdv⟩ | ⟨hd, hdv⟩
    · exact Or.inl ⟨d, hd, hd0, hmsg.trans hdv⟩
    · rcases jsOr2_cases j.error "Failed to submit answer" with
        ⟨e, he, he0, hev⟩ | ⟨he, hev⟩
      · exact Or.inr (Or.inl ⟨hd, e, he, he0, (hmsg.trans hdv).trans hev⟩)
      · exact Or.inr (Or.inr ⟨hd, he, (hmsg.trans hdv).trans hev⟩)
  · rintro pm raw rfl
    rfl

/-- C5 witness: at the worked example — a 400 response with body
`detail = bad audio format` — the surfaced message is exactly
`bad audio format`. -/
theorem c5_amended_witness :
    (submitAnswer st0 sess0 "a" none
        (FetchOutcome.response false 400 (JsonBody.parsed jBadAudio))).state.error
      = some "bad audio format" :=
  ((c5_amended_error_message st0 sess0 "a" none 400 (JsonBody.parsed jBadAudio)
      q0 rfl).1).trans (by decide)

/-- C7: for every 2xx response with a parseable body, a missing `evaluation`
field is treated as a malformed response — the Errored state is entered
with the missing-evaluation message — while a present `evaluation` yields
the FeedbackShown state: no error, feedback set, and the feedback panel
shown. -/
theorem c7_evaluation_required (st : InterviewState) (sess : SessionData)
    (text : String) (audio : Option AudioFile) (status : Nat) (j : RespJson)
    (q : Question) (hq : st.currentQuestion = some q) :
    (j.evaluation = none →
       (submitAnswer st sess text audio
           (FetchOutcome.response true status (JsonBody.parsed j))).state.error
         = some "Invalid response format - missing evaluation") ∧
    (∀ e, j.evaluation = some e →
       (submitAnswer st sess text audio
           (FetchOutcome.response true status (JsonBody.parsed j))).state.error
         = none ∧
       (submitAnswer st sess text audio
           (FetchOutcome.response true status (JsonBody.parsed j))).state.showFeedback
         = true ∧
       (submitAnswer st sess text audio
           (FetchOutcome.response true status (JsonBody.parsed j))).state.feedback
         = some e) := by
  constructor
  · intro he
    simp [submitAnswer, hq, submitCore, he]
  · intro e he
    refine ⟨?_, ?_, ?_⟩ <;> simp [submitAnswer, hq, submitCore, he]

/-- C7 witness: a 200 response carrying `evaluation` and a next question
transitions to FeedbackShown with that evaluation and no error. -/
theorem c7_witness :
    (submitAnswer st0 sess0 "a" none
        (FetchOutcome.response true 200 (JsonBody.parsed jNext))).state.showFeedback
      = true ∧
    (submitAnswer st0 sess0 "a" none
        (FetchOutcome.response true 200 (JsonBody.parsed jNext))).state.feedback
      = some eval0 :=
  let h := (c7_evaluation_required st0 sess0 "a" none 200 jNext q0 rfl).2 eval0 rfl
  ⟨h.2.1, h.2.2⟩

/-- C8: the start-recording control is available exactly when no recording is
active and no completed blob is held, and whenever a recording is active or
a blob is held, the start event leaves the state untouched — so a second
recording cannot begin until the first is stopped and its audio cleared. -/
theorem c8_start_control_mutual_exclusion (s : RecorderState) :
    (startAvailable s = true ↔ (s.isRecording = false ∧ s.audioBlob = none)) ∧
    (s.isRecording = true ∨ s.audioBlob ≠ none →
       recStep s RecEvent.startRec = s) := by
  have hiff : startAvailable s = true ↔
      (s.isRecording = false ∧ s.audioBlob = none) := by
    cases hr : s.isRecording <;> cases ha : s.audioBlob <;>
      simp [startAvailable, hr, ha]
  refine ⟨hiff, fun h => ?_⟩
  have hf : startAvailable s = false := by
    cases hv : startAvailable s
    · rfl
    · rcases hiff.mp hv with ⟨h1, h2⟩
      rcases h with h | h
      · rw [h1] at h; exact absurd h (by simp)
      · exact absurd h2 h
  simp [recStep, hf]

/-- C8 witness: with a recording active, the start event is a no-op. -/
theorem c8_witness : recStep sRec0 RecEvent.startRec = sRec0 :=
  (c8_start_control_mutual_exclusion sRec0).2 (Or.inl rfl)

/-- C10: for every name whose trimmed form is empty, the start handler warns
and returns without issuing the session-creation request, the view stays on
the start form, and the start button is disabled. -/
theorem c10_empty_name_blocks_start (name experience : String)
    (resp : StartResp) (l : Bool) (h : jsTrim name = "") :
    (handleStart name experience resp).warned = true ∧
    (handleStart name experience resp).request = none ∧
    (handleStart name experience resp).view = "home" ∧
    startDisabled l name = true := by
  refine ⟨?_, ?_, ?_, ?_⟩ <;> simp [handleStart, startDisabled, h]

/-- C10 witness: a whitespace-only name blocks the start flow and disables
the button. -/
theorem c10_witness :
    (handleStart "   " "beginner" StartResp.netError).request = none ∧
    startDisabled false "   " = true :=
  let h := c10_empty_name_blocks_start "   " "beginner" StartResp.netError
    false (by decide)
  ⟨h.2.1, h.2.2.2⟩
